import Mathlib

/-
Verification of the UART LoRa firmware (src/main.c).

The C source is shallowly embedded: each C function becomes a pure Lean
function over explicit inputs (byte streams as `List Char`, the UART
timeout collapsed to a Bool saying whether the first byte became readable
in time, the module abstracted as a `Responder` giving the reply line, if
any, to each command).  Machine `uint32_t` subtraction is modelled with an
explicit `% 2^32`.
-/

/-- GPIO pin of the left button (`#define SW_0 9`). -/
def SW_0 : Nat := 9

/-- Maximum line length for the UART input buffer (`#define LINE_LEN 128`). -/
def LINE_LEN : Nat := 128

/-- Debounce delay in milliseconds (`#define DEBOUNCE_MS 20`). -/
def DEBOUNCE_MS : Nat := 20

/-- The `AT` command string (`#define CMD_AT "AT\r\n"`). -/
def CMD_AT : List Char := "AT\r\n".toList

/-- The version query (`#define CMD_VERSION "AT+VER\r\n"`). -/
def CMD_VERSION : List Char := "AT+VER\r\n".toList

/-- The identity query (`#define CMD_DEV_EUI "AT+ID=DevEui\r\n"`). -/
def CMD_DEV_EUI : List Char := "AT+ID=DevEui\r\n".toList

/-- Token searched by `check_connection` via `strstr(line, "OK")`. -/
def okTok : List Char := "OK".toList

/-- Token searched by `check_version` via `strstr(line, "VER")`. -/
def verTok : List Char := "VER".toList

/-- Token searched by `check_dev_eui` via `strstr(line, "DevEui")`. -/
def devTok : List Char := "DevEui".toList

/-- The success message printed by `main` after `check_connection`. -/
def MSG_CONNECTED : List Char := "Connected to LoRa module".toList

/-- The failure message printed by `main` when any stage fails. -/
def MSG_NOT_RESPONDING : List Char := "Module not responding".toList

/-- Model of C `strncmp`-style comparison used below: does `s` start with `p`? -/
def startsWithL : List Char → List Char → Bool
  | [], _ => true
  | _ :: _, [] => false
  | p :: ps, c :: cs => p = c && startsWithL ps cs

/-- Model of `strstr(s, p) != NULL`: does `p` occur as a contiguous substring of `s`? -/
def containsSub (p : List Char) : List Char → Bool
  | [] => startsWithL p []
  | c :: cs => startsWithL p (c :: cs) || containsSub p cs

/-- Event kind (`typedef enum { EVENT_BUTTON } event_type`). -/
inductive event_type where
  | EVENT_BUTTON
deriving DecidableEq

/-- Event record (`event_t`): kind plus payload (1 = press, 0 = release). -/
structure event_t where
  type : event_type
  data : Int
deriving DecidableEq

/-- Model of `queue_try_add` on the 32-slot event queue: append if below
capacity, silently drop otherwise. -/
def queue_try_add (q : List event_t) (e : event_t) : List event_t :=
  if q.length < 32 then q ++ [e] else q

/-- Model of C `uint32_t` subtraction `a - b` (both operands already reduced
mod `2^32` in the program): the mathematical difference taken mod `2^32`. -/
def u32sub (a b : Nat) : Nat := (a + 2 ^ 32 - b % 2 ^ 32) % 2 ^ 32

/-- Model of `gpio_callback`: given the interrupt mask (rise/fall bits), the
current time `now`, the stored `last_ms` and the queue, return the new
`last_ms` and queue.  Mirrors the C code: the rising-edge block runs first
and, if it accepts, updates `last_ms` before the falling-edge block runs. -/
def gpio_callback (gpio : Nat) (mask_rise mask_fall : Bool) (now last_ms : Nat)
    (q : List event_t) : Nat × List event_t :=
  if gpio = SW_0 then
    let p1 : Nat × List event_t :=
      if mask_rise ∧ DEBOUNCE_MS ≤ u32sub now last_ms then
        (now, queue_try_add q ⟨event_type.EVENT_BUTTON, 0⟩)
      else (last_ms, q)
    if mask_fall ∧ DEBOUNCE_MS ≤ u32sub now p1.1 then
      (now, queue_try_add p1.2 ⟨event_type.EVENT_BUTTON, 1⟩)
    else (p1.1, p1.2)
  else (last_ms, q)

/-- Run `gpio_callback` over a sequence of transitions
`(now, mask_rise, mask_fall)`, threading `last_ms` and the queue. -/
def run_transitions (last_ms : Nat) (q : List event_t) :
    List (Nat × Bool × Bool) → Nat × List event_t
  | [] => (last_ms, q)
  | (now, r, f) :: rest =>
    let st := gpio_callback SW_0 r f now last_ms q
    run_transitions st.1 st.2 rest

/-- Result of `read_line`: `timeout` models the `false` return when
`uart_is_readable_within_us` fails; `blocked` models the loop waiting
forever in `uart_getc` on a stream that yields no further byte; `line`
carries the accumulated characters and the index at which the terminating
`'\0'` is stored (`buffer[i] = '\0'`). -/
inductive ReadResult where
  | timeout
  | blocked
  | line (content : List Char) (nullIdx : Nat)
deriving DecidableEq

/-- The accumulation loop of `read_line` (`while (i < len) { ... }`), reading
from the byte stream `s` with stored-character count `i`.  Returns the stored
characters and the final value of `i` (where the `'\0'` is then written). -/
def rl_loop (len : Nat) : Nat → List Char → Option (List Char × Nat)
  | i, [] => if i < len then none else some ([], i)
  | i, c :: rest =>
    if i < len then
      if c = '\n' then some ([], i)
      else if c = '\r' then rl_loop len i rest
      else
        match rl_loop len (i + 1) rest with
        | some (acc, j) => some (c :: acc, j)
        | none => none
    else some ([], i)

/-- Model of `read_line(buffer, len, timeout_ms)`: `avail` says whether
`uart_is_readable_within_us` succeeded within the timeout, `s` is the byte
stream subsequently delivered by `uart_getc`. -/
def read_line (avail : Bool) (s : List Char) (len : Nat) : ReadResult :=
  if avail then
    match rl_loop len 0 s with
    | some (acc, i) => ReadResult.line acc i
    | none => ReadResult.blocked
  else ReadResult.timeout

/-- One iteration of the loop body of `convert_and_print`: state is the
current group buffer (`current_hexadecimal[0..j-1]`) and the output printed
so far.  A character that is not `':'` while the buffer holds fewer than 4
characters is stored; otherwise the buffer is flushed to the output and
reset (the character itself is dropped). -/
def conv_step (st : List Char × List Char) (c : Char) : List Char × List Char :=
  if c ≠ ':' ∧ st.1.length < 4 then (st.1 ++ [c], st.2) else ([], st.2 ++ st.1)

/-- The full scan of `convert_and_print` over the hex payload, including the
virtual pass at `i = len` where the character read is the `'\0'` terminator:
since `'\0' != ':'`, that pass stores the NUL (printing nothing) when the
buffer holds fewer than 4 characters, and flushes only when it holds
exactly 4. -/
def convert_payload (payload : List Char) : List Char :=
  let st := payload.foldl conv_step ([], [])
  if st.1.length < 4 then st.2 else st.2 ++ st.1

/-- Model of `convert_and_print`: find the first comma (`strchr`), advance
two positions past it, and scan the remainder.  `none` models the two cases
whose C behavior is undefined: no comma found (`strchr` returns `NULL` and
the code still does `+= 2`), and a comma that is the final character (the
advance lands one past the `'\0'`). -/
def convert_and_print (line : List Char) : Option (List Char) :=
  match line.findIdx? (fun c => c = ',') with
  | none => none
  | some idx =>
    if idx + 2 ≤ line.length then some (convert_payload (line.drop (idx + 2)))
    else none

/-- The characters a single colon-terminated group actually contributes to
the output: a group of at most 4 characters is copied whole; a longer group
has its first 4 characters flushed, its 5th character dropped (it only
triggers the flush), and the remainder treated as a fresh group. -/
def groupContribution : List Char → List Char
  | a :: b :: c :: d :: _ :: rest => a :: b :: c :: d :: groupContribution rest
  | g => g

/-- Abstraction of the LoRa module on the far end of the UART: the reply
line (if any — `none` models a read timeout) to the i-th `AT` probe, to the
version query, and to the identity query. -/
structure Responder where
  atReply : Nat → Option (List Char)
  verReply : Option (List Char)
  idReply : Option (List Char)

/-- Does the reply to the i-th `AT` probe arrive and contain `"OK"`? -/
def okAt (r : Responder) (i : Nat) : Bool :=
  match r.atReply i with
  | some l => containsSub okTok l
  | none => false

/-- The retry loop of `check_connection` (`for (int i = 0; i < 5; i++)`),
with the remaining attempt count as fuel.  Returns the success flag and the
trace of send/read cycles performed, each recorded as the command sent and
the read timeout in ms. -/
def check_connection_aux (r : Responder) : Nat → Nat → Bool × List (List Char × Nat)
  | 0, _ => (false, [])
  | fuel + 1, i =>
    match r.atReply i with
    | some l =>
      if containsSub okTok l then (true, [(CMD_AT, 500)])
      else
        ((check_connection_aux r fuel (i + 1)).1,
         (CMD_AT, 500) :: (check_connection_aux r fuel (i + 1)).2)
    | none =>
      ((check_connection_aux r fuel (i + 1)).1,
       (CMD_AT, 500) :: (check_connection_aux r fuel (i + 1)).2)

/-- Model of `check_connection`: up to 5 send/read cycles. -/
def check_connection (r : Responder) : Bool × List (List Char × Nat) :=
  check_connection_aux r 5 0

/-- Model of `check_version`: one send/read cycle; on a reply containing
`"VER"` the raw line is printed and the stage succeeds.  Returns the
success flag and the lines printed. -/
def check_version (r : Responder) : Bool × List (List Char) :=
  match r.verReply with
  | some l => if containsSub verTok l then (true, [l]) else (false, [])
  | none => (false, [])

/-- Model of `check_dev_eui`: one send/read cycle; on a reply containing
`"DevEui"` the raw line is printed and the line is handed to
`convert_and_print`.  The printed lines are `none` when `convert_and_print`
hits its undefined-behavior path (no comma / trailing comma). -/
def check_dev_eui (r : Responder) : Bool × Option (List (List Char)) :=
  match r.idReply with
  | some l =>
    if containsSub devTok l then
      match convert_and_print l with
      | some hex => (true, some [l, hex])
      | none => (true, none)
    else (false, some [])
  | none => (false, some [])

/-- Model of the body executed by `main` for one button-press event: the
three stages in order, each failure printing `MSG_NOT_RESPONDING` and
short-circuiting the rest.  Returns the printed lines (`none` when the
identity stage reaches undefined behavior) and the trace of commands sent
with their read timeouts. -/
def process_press (r : Responder) : Option (List (List Char)) × List (List Char × Nat) :=
  if (check_connection r).1 then
    if (check_version r).1 then
      match (check_dev_eui r).2 with
      | some idPrints =>
        (some (MSG_CONNECTED :: (check_version r).2 ++ idPrints ++
           (if (check_dev_eui r).1 then [] else [MSG_NOT_RESPONDING])),
         (check_connection r).2 ++ [(CMD_VERSION, 500), (CMD_DEV_EUI, 500)])
      | none =>
        (none, (check_connection r).2 ++ [(CMD_VERSION, 500), (CMD_DEV_EUI, 500)])
    else
      (some (MSG_CONNECTED :: (check_version r).2 ++ [MSG_NOT_RESPONDING]),
       (check_connection r).2 ++ [(CMD_VERSION, 500)])
  else (some [MSG_NOT_RESPONDING], (check_connection r).2)

/-- Model of the event dispatch in `main`: only a button event with
payload 1 (press) triggers the AT sequence. -/
def process_event (r : Responder) (e : event_t) : Option (List (List Char)) × List (List Char × Nat) :=
  if e.type = event_type.EVENT_BUTTON ∧ e.data = 1 then process_press r
  else (some [], [])

/-- Responder that replies `"OK"` only on the 3rd `AT` attempt. -/
def mockOkThird : Responder :=
  ⟨fun i => if i = 2 then some "OK".toList else some "ERROR".toList, none, none⟩

/-- Responder that never produces a line containing `"OK"`. -/
def mockNeverOk : Responder := ⟨fun _ => some "ERROR".toList, none, none⟩

/-- Responder for the end-to-end happy path of the spec. -/
def happyResponder : Responder :=
  ⟨fun _ => some "+AT: OK".toList, some "+VER: 4.0.11".toList,
   some "+ID: DevEui, DE:AD:BE:EF:00:11:22:33".toList⟩

/-- Responder whose identity reply contains `"DevEui"` but no comma. -/
def noCommaResponder : Responder := ⟨fun _ => none, none, some "DevEui".toList⟩

/-! ### Helper lemmas -/

theorem u32sub_eq (a b : Nat) (hba : b ≤ a) (ha : a < 2 ^ 32) : u32sub a b = a - b := by
  unfold u32sub
  rw [Nat.mod_eq_of_lt (lt_of_le_of_lt hba ha)]
  have h1 : a + 2 ^ 32 - b = (a - b) + 2 ^ 32 := by omega
  rw [h1, Nat.add_mod_right, Nat.mod_eq_of_lt (by omega)]

theorem conv_fold_small (g : List Char) : ∀ (b out : List Char), ':' ∉ g →
    b.length + g.length ≤ 4 → List.foldl conv_step (b, out) g = (b ++ g, out) := by
  induction g with
  | nil => intro b out _ _; simp
  | cons c g ih =>
    intro b out hmem hlen
    have hc : c ≠ ':' := fun h => hmem (h ▸ List.mem_cons_self c g)
    have hb : b.length < 4 := by
      simp only [List.length_cons] at hlen; omega
    have step : conv_step (b, out) c = (b ++ [c], out) := by
      simp [conv_step, hc, hb]
    have hlen' : (b ++ [c]).length + g.length ≤ 4 := by
      simp only [List.length_append, List.length_cons, List.length_nil] at hlen ⊢
      omega
    rw [List.foldl_cons, step,
      ih (b ++ [c]) out (fun h => hmem (List.mem_cons_of_mem c h)) hlen']
    simp

theorem groupContribution_small (g : List Char) (h : g.length ≤ 4) :
    groupContribution g = g := by
  rcases g with _ | ⟨a, _ | ⟨b, _ | ⟨c, _ | ⟨d, _ | ⟨e, rest⟩⟩⟩⟩⟩
  · rfl
  · rfl
  · rfl
  · rfl
  · rfl
  · exfalso; simp only [List.length_cons] at h; omega

theorem five_cons_of_length (g : List Char) (h : ¬ g.length ≤ 4) :
    ∃ a b c d e rest, g = a :: b :: c :: d :: e :: rest := by
  match g with
  | a :: b :: c :: d :: e :: rest => exact ⟨a, b, c, d, e, rest, rfl⟩
  | [] | [a] | [a, b] | [a, b, c] | [a, b, c, d] => simp at h

theorem conv_fold_group (n : Nat) : ∀ (g out : List Char), g.length ≤ n → ':' ∉ g →
    List.foldl conv_step ([], out) (g ++ [':']) = ([], out ++ groupContribution g) := by
  induction n with
  | zero =>
    intro g out hlen _
    have hg : g = [] := List.eq_nil_of_length_eq_zero (Nat.le_zero.mp hlen)
    subst hg
    simp [conv_step, groupContribution]
  | succ n ih =>
    intro g out hlen hmem
    by_cases hsmall : g.length ≤ 4
    · rw [List.foldl_append, conv_fold_small g [] out hmem (by simpa using hsmall)]
      simp [conv_step, groupContribution_small g hsmall]
    · obtain ⟨a, b, c, d, e, rest, rfl⟩ := five_cons_of_length g hsmall
      have hmem4 : ':' ∉ ([a, b, c, d] : List Char) := by
        intro h
        apply hmem
        simp only [List.mem_cons, List.not_mem_nil, or_false] at h
        simp only [List.mem_cons]
        tauto
      have he : e ≠ ':' := by intro h; apply hmem; subst h; simp
      have hrest : ':' ∉ rest := fun h => hmem (by simp [h])
      have hsplit : (a :: b :: c :: d :: e :: rest) ++ [':'] =
          [a, b, c, d] ++ (e :: (rest ++ [':'])) := by simp
      rw [hsplit, List.foldl_append, conv_fold_small [a, b, c, d] [] out hmem4 (by simp)]
      have hstep : conv_step (([] : List Char) ++ [a, b, c, d], out) e =
          ([], out ++ [a, b, c, d]) := by
        simp [conv_step]
      rw [List.foldl_cons, hstep,
        ih rest (out ++ [a, b, c, d])
          (by simp only [List.length_cons] at hlen; omega) hrest]
      simp [groupContribution]

theorem rl_loop_spec (len : Nat) :
    ∀ (s : List Char) (i : Nat),
      ('\n' ∈ s ∨ len ≤ i + (s.filter (fun c => c ≠ '\r')).length) →
      rl_loop len i s =
        some (((s.takeWhile (fun c => c ≠ '\n')).filter (fun c => c ≠ '\r')).take (len - i),
          i + (((s.takeWhile (fun c => c ≠ '\n')).filter (fun c => c ≠ '\r')).take (len - i)).length) := by
  intro s
  induction s with
  | nil =>
    intro i h
    have hle : len ≤ i := by
      rcases h with h | h
      · exact absurd h (List.not_mem_nil _)
      · simpa using h
    have hni : ¬ i < len := by omega
    simp [rl_loop, hni]
  | cons c rest ih =>
    intro i h
    by_cases hi : i < len
    · by_cases hn : c = '\n'
      · subst hn
        simp [rl_loop, hi, List.takeWhile_cons]
      · by_cases hr : c = '\r'
        · subst hr
          have h' : '\n' ∈ rest ∨ len ≤ i + (rest.filter (fun c => c ≠ '\r')).length := by
            rcases h with h | h
            · left
              rcases List.mem_cons.mp h with h | h
              · exact absurd h.symm (by decide)
              · exact h
            · right
              simpa using h
          simp [rl_loop, hi, ih i h', List.takeWhile_cons, List.filter_cons]
        · have h' : '\n' ∈ rest ∨ len ≤ (i + 1) + (rest.filter (fun c => c ≠ '\r')).length := by
            rcases h with h | h
            · left
              rcases List.mem_cons.mp h with h | h
              · exact absurd h.symm hn
              · exact h
            · right
              simp only [List.filter_cons] at h
              rw [if_pos (by simp [hr])] at h
              simp only [List.length_cons] at h
              omega
          have hrec := ih (i + 1) h'
          have htk : len - i = (len - (i + 1)) + 1 := by omega
          simp only [rl_loop, if_pos hi, if_neg hn, if_neg hr, hrec]
          simp [hn, hr, htk, List.takeWhile_cons, List.filter_cons, List.take_succ_cons]
          omega
    · have htk : len - i = 0 := by omega
      simp [rl_loop, hi, htk]

theorem conn_step_fail (r : Responder) (fuel i : Nat) (h : okAt r i = false) :
    check_connection_aux r (fuel + 1) i =
      ((check_connection_aux r fuel (i + 1)).1,
       (CMD_AT, 500) :: (check_connection_aux r fuel (i + 1)).2) := by
  cases ha : r.atReply i with
  | none => simp [check_connection_aux, ha]
  | some l =>
    have h' : containsSub okTok l = false := by
      unfold okAt at h
      rw [ha] at h
      exact h
    simp [check_connection_aux, ha, h']

theorem conn_step_ok (r : Responder) (fuel i : Nat) (h : okAt r i = true) :
    check_connection_aux r (fuel + 1) i = (true, [(CMD_AT, 500)]) := by
  cases ha : r.atReply i with
  | none =>
    exfalso
    unfold okAt at h
    rw [ha] at h
    cases h
  | some l =>
    have h' : containsSub okTok l = true := by
      unfold okAt at h
      rw [ha] at h
      exact h
    simp [check_connection_aux, ha, h']

theorem conn_never_ok (r : Responder) (h : ∀ i, i < 5 → okAt r i = false) :
    check_connection r = (false, List.replicate 5 (CMD_AT, 500)) := by
  have e0 : check_connection_aux r 5 0 =
      ((check_connection_aux r 4 1).1, (CMD_AT, 500) :: (check_connection_aux r 4 1).2) :=
    conn_step_fail r 4 0 (h 0 (by omega))
  have e1 : check_connection_aux r 4 1 =
      ((check_connection_aux r 3 2).1, (CMD_AT, 500) :: (check_connection_aux r 3 2).2) :=
    conn_step_fail r 3 1 (h 1 (by omega))
  have e2 : check_connection_aux r 3 2 =
      ((check_connection_aux r 2 3).1, (CMD_AT, 500) :: (check_connection_aux r 2 3).2) :=
    conn_step_fail r 2 2 (h 2 (by omega))
  have e3 : check_connection_aux r 2 3 =
      ((check_connection_aux r 1 4).1, (CMD_AT, 500) :: (check_connection_aux r 1 4).2) :=
    conn_step_fail r 1 3 (h 3 (by omega))
  have e4 : check_connection_aux r 1 4 =
      ((check_connection_aux r 0 5).1, (CMD_AT, 500) :: (check_connection_aux r 0 5).2) :=
    conn_step_fail r 0 4 (h 4 (by omega))
  have e5 : check_connection_aux r 0 5 = (false, []) := rfl
  show check_connection_aux r 5 0 = _
  rw [e0, e1, e2, e3, e4, e5]
  rfl

theorem conn_trace_AT (r : Responder) :
    ∀ (fuel i : Nat) (p : List Char × Nat),
      p ∈ (check_connection_aux r fuel i).2 → p = (CMD_AT, 500) := by
  intro fuel
  induction fuel with
  | zero =>
    intro i p hp
    simp [check_connection_aux] at hp
  | succ fuel ih =>
    intro i p hp
    cases ha : r.atReply i with
    | none =>
      rw [conn_step_fail r fuel i (by simp [okAt, ha])] at hp
      rcases List.mem_cons.mp hp with h | h
      · exact h
      · exact ih (i + 1) p h
    | some l =>
      by_cases hok : containsSub okTok l = true
      · rw [conn_step_ok r fuel i (by simp [okAt, ha, hok])] at hp
        simpa using hp
      · rw [conn_step_fail r fuel i (by simp [okAt, ha]; simpa using hok)] at hp
        rcases List.mem_cons.mp hp with h | h
        · exact h
        · exact ih (i + 1) p h

theorem ver_fail_prints (r : Responder) (h : (check_version r).1 = false) :
    (check_version r).2 = [] := by
  cases ha : r.verReply with
  | none => simp [check_version, ha]
  | some l =>
    by_cases hv : containsSub verTok l = true
    · simp [check_version, ha, hv] at h
    · simp [check_version, ha, hv]

theorem ver_ok_prints (r : Responder) (h : (check_version r).1 = true) :
    ∃ l, (check_version r).2 = [l] ∧ containsSub verTok l = true := by
  cases ha : r.verReply with
  | none => simp [check_version, ha] at h
  | some l =>
    by_cases hv : containsSub verTok l = true
    · exact ⟨l, by simp [check_version, ha, hv], hv⟩
    · simp [check_version, ha, hv] at h

theorem ver_ok_count (r : Responder) (h : (check_version r).1 = true) :
    (check_version r).2.count MSG_NOT_RESPONDING = 0 := by
  obtain ⟨l, hl, hv⟩ := ver_ok_prints r h
  rw [hl]
  have hne : l ≠ MSG_NOT_RESPONDING := by
    intro heq
    rw [heq] at hv
    exact absurd hv (by decide)
  simp [List.count_cons, hne]

theorem dev_fail_prints (r : Responder) (h : (check_dev_eui r).1 = false) :
    (check_dev_eui r).2 = some [] := by
  cases ha : r.idReply with
  | none => simp [check_dev_eui, ha]
  | some l =>
    by_cases hd : containsSub devTok l = true
    · cases hc : convert_and_print l with
      | none => simp [check_dev_eui, ha, hd, hc] at h
      | some hex => simp [check_dev_eui, ha, hd, hc] at h
    · simp [check_dev_eui, ha, hd]

/-! ### Claim theorems -/

/-- C1: the claim that `convert_and_print` flushes the final group even
without a trailing colon, so that `+ID: DevEui, AB:CD:EF:01:23:45:67:89`
prints `ABCDEF0123456789`, fails on the code: at the virtual pass the NUL
character satisfies `c != ':' && j < 4` for the 2-character final group, so
the NUL is stored instead of triggering a flush, and the final group `89`
is never printed.  The code's actual output is `ABCDEF01234567`. -/
theorem convert_and_print_drops_final_group :
    convert_and_print "+ID: DevEui, AB:CD:EF:01:23:45:67:89".toList
        = some "ABCDEF01234567".toList ∧
    convert_and_print "+ID: DevEui, AB:CD:EF:01:23:45:67:89".toList
        ≠ some "ABCDEF0123456789".toList := by
  constructor
  · rfl
  · decide

/-- C2 counterexample: the group `ABCDEF` (6 characters) does not contribute
only its first 4 characters: the 5th character `E` is dropped but the 6th
character `F` appears in the output, because after the flush the remaining
characters start a fresh group.  Full truncation to 4 would give
`ABCD1234`; the code gives `ABCDF1234`. -/
theorem convert_and_print_sixth_char_appears :
    convert_and_print "x, ABCDEF:1234".toList = some "ABCDF1234".toList ∧
    'F' ∈ "ABCDF1234".toList ∧
    convert_and_print "x, ABCDEF:1234".toList ≠ some "ABCD1234".toList := by
  refine ⟨rfl, by decide, by decide⟩

/-- C2 (amended): a colon-terminated group `g` contributes exactly
`groupContribution g` to the output: a group of at most 4 characters is
copied whole; a longer group has its first 4 characters flushed, its 5th
character silently dropped, and the characters from the 6th on processed as
a fresh group — so characters beyond the 4th of a group can appear in the
output. -/
theorem conv_group_truncation (g out : List Char) (h : ':' ∉ g) :
    List.foldl conv_step ([], out) (g ++ [':']) = ([], out ++ groupContribution g) :=
  conv_fold_group g.length g out le_rfl h

/-- Witness for `conv_group_truncation` at the concrete group `ABCDEF`. -/
theorem conv_group_truncation_witness :
    ':' ∉ "ABCDEF".toList ∧
    List.foldl conv_step ([], []) ("ABCDEF".toList ++ [':']) = ([], "ABCDF".toList) :=
  ⟨by decide, conv_group_truncation "ABCDEF".toList [] (by decide)⟩

/-- C3: the end-to-end happy path fails on the code for the same reason as
C1: with a responder answering `OK`, a `VER` line and the identity line
`+ID: DevEui, DE:AD:BE:EF:00:11:22:33`, the program prints the connected
message, the raw version line, the raw identity line — but then the
formatted string `DEADBEEF001122`, not `DEADBEEF00112233`: the final octet
group `33` is dropped by the missing final flush. -/
theorem process_press_end_to_end_drops_final_octet :
    process_event happyResponder ⟨event_type.EVENT_BUTTON, 1⟩ =
      (some [MSG_CONNECTED, "+VER: 4.0.11".toList,
         "+ID: DevEui, DE:AD:BE:EF:00:11:22:33".toList, "DEADBEEF001122".toList],
       [(CMD_AT, 500), (CMD_VERSION, 500), (CMD_DEV_EUI, 500)]) ∧
    "DEADBEEF001122".toList ≠ "DEADBEEF00112233".toList := by
  constructor
  · rfl
  · decide

/-- C4: the token guard of `check_dev_eui` does not ensure a comma is
present: the line `DevEui` contains the token `DevEui` but no comma, so the
guard accepts it and hands it to `convert_and_print`, where the comma
search fails (`strchr` returns `NULL`) and the unconditional `+= 2` advance
is undefined behavior (modelled by `none`). -/
theorem check_dev_eui_accepts_comma_free_line :
    containsSub devTok "DevEui".toList = true ∧
    List.findIdx? (fun c => c = ',') "DevEui".toList = none ∧
    check_dev_eui noCommaResponder = (true, none) := by
  refine ⟨by decide, by decide, rfl⟩

/-- C5: the claim that every store of `read_line` into the buffer uses an
index strictly below `len` fails on the code: when `len` non-line-feed
bytes arrive before any terminator, the loop exits with `i = len` and the
terminating NUL is stored at `buffer[len]`, one past the last valid index
of the `len`-byte buffer.  With `len = 4` and stream `AAAA` the NUL index
is 4, not `< 4`. -/
theorem read_line_null_write_at_len :
    read_line true "AAAA".toList 4 = ReadResult.line "AAAA".toList 4 ∧ ¬ (4 < 4) := by
  refine ⟨rfl, by decide⟩

/-- C9: if no byte becomes available within the timeout, `read_line`
returns the timeout failure, never a zero-length success; and any
successful `line` return can only occur when the first byte became
available within the timeout. -/
theorem read_line_timeout_behavior (s : List Char) (len : Nat) :
    read_line false s len = ReadResult.timeout ∧
    ∀ (avail : Bool) (l : List Char) (i : Nat),
      read_line avail s len = ReadResult.line l i → avail = true := by
  constructor
  · rfl
  · intro avail l i h
    cases avail
    · exact absurd h (by simp [read_line])
    · rfl

/-- Witness for `read_line_timeout_behavior` at a concrete stream. -/
theorem read_line_timeout_behavior_witness :
    read_line false "A".toList 1 = ReadResult.timeout ∧ true = true :=
  ⟨(read_line_timeout_behavior "A".toList 1).1,
   (read_line_timeout_behavior "A".toList 1).2 true "A".toList 1 (by decide)⟩

/-- C8: when the first byte arrives within the timeout and the stream
either contains a line feed or supplies at least `len` stored (non-CR)
bytes, `read_line` returns a successful line whose content is the stream up
to (and excluding) the first line feed, with every carriage return
stripped, truncated to at most `len` characters — truncation at the
maximum length is still a successful return, not an error. -/
theorem read_line_line_assembly (s : List Char) (len : Nat)
    (h : '\n' ∈ s ∨ len ≤ (s.filter (fun c => c ≠ '\r')).length) :
    read_line true s len =
      ReadResult.line
        (((s.takeWhile (fun c => c ≠ '\n')).filter (fun c => c ≠ '\r')).take len)
        (((s.takeWhile (fun c => c ≠ '\n')).filter (fun c => c ≠ '\r')).take len).length := by
  have hs := rl_loop_spec len s 0 (by simpa using h)
  rw [Nat.sub_zero] at hs
  simp [read_line, hs]

/-- Witness for `read_line_line_assembly`: the stream `AB\rC` with maximum
length 3 has no terminator; the carriage return is stripped and the
accumulated partial content `ABC` is returned as a successful line. -/
theorem read_line_line_assembly_witness :
    ('\n' ∈ "AB\rC".toList ∨ 3 ≤ ("AB\rC".toList.filter (fun c => c ≠ '\r')).length) ∧
    read_line true "AB\rC".toList 3 = ReadResult.line "ABC".toList 3 :=
  ⟨Or.inr (by decide),
   read_line_line_assembly "AB\rC".toList 3 (Or.inr (by decide))⟩

/-- C6: `check_connection` re-sends `AT` and re-reads with a 500 ms timeout
on each attempt, up to 5 attempts: with a responder whose reply contains
`OK` only on the 3rd attempt, it succeeds after exactly 3 send/read cycles
(each cycle sending `CMD_AT` with a 500 ms read); with a responder never
containing `OK` within 5 attempts, it fails after exactly 5 cycles. -/
theorem check_connection_retry_behavior (r : Responder) :
    (okAt r 0 = false → okAt r 1 = false → okAt r 2 = true →
       check_connection r = (true, List.replicate 3 (CMD_AT, 500))) ∧
    ((∀ i, i < 5 → okAt r i = false) →
       check_connection r = (false, List.replicate 5 (CMD_AT, 500))) := by
  constructor
  · intro h0 h1 h2
    have e0 : check_connection_aux r 5 0 =
        ((check_connection_aux r 4 1).1, (CMD_AT, 500) :: (check_connection_aux r 4 1).2) :=
      conn_step_fail r 4 0 h0
    have e1 : check_connection_aux r 4 1 =
        ((check_connection_aux r 3 2).1, (CMD_AT, 500) :: (check_connection_aux r 3 2).2) :=
      conn_step_fail r 3 1 h1
    have e2 : check_connection_aux r 3 2 = (true, [(CMD_AT, 500)]) :=
      conn_step_ok r 2 2 h2
    show check_connection_aux r 5 0 = _
    rw [e0, e1, e2]
    rfl
  · exact conn_never_ok r

/-- Witness for `check_connection_retry_behavior` with the two mock
responders of the spec's testable properties. -/
theorem check_connection_retry_behavior_witness :
    (okAt mockOkThird 0 = false ∧ okAt mockOkThird 1 = false ∧ okAt mockOkThird 2 = true ∧
       check_connection mockOkThird = (true, List.replicate 3 (CMD_AT, 500))) ∧
    ((∀ i, i < 5 → okAt mockNeverOk i = false) ∧
       check_connection mockNeverOk = (false, List.replicate 5 (CMD_AT, 500))) :=
  ⟨⟨by decide, by decide, by decide,
    (check_connection_retry_behavior mockOkThird).1 (by decide) (by decide) (by decide)⟩,
   ⟨by decide, (check_connection_retry_behavior mockNeverOk).2 (by decide)⟩⟩

/-- C7: every stage failure for one trigger event produces exactly one
`Module not responding` message and short-circuits the remaining stages.
In particular, when no `AT` attempt yields a line containing `OK`, the
output is exactly one failure message and neither the version query nor
the identity query is ever sent; a version-stage failure prints exactly one
failure message and never sends the identity query; an identity-stage
failure prints exactly one failure message. -/
theorem process_press_failure_reporting (r : Responder) :
    ((∀ i, i < 5 → okAt r i = false) →
       process_press r = (some [MSG_NOT_RESPONDING], List.replicate 5 (CMD_AT, 500)) ∧
       (CMD_VERSION, 500) ∉ (process_press r).2 ∧
       (CMD_DEV_EUI, 500) ∉ (process_press r).2 ∧
       (∀ ps, (process_press r).1 = some ps → ps.count MSG_NOT_RESPONDING = 1)) ∧
    ((check_connection r).1 = true → (check_version r).1 = false →
       process_press r = (some [MSG_CONNECTED, MSG_NOT_RESPONDING],
         (check_connection r).2 ++ [(CMD_VERSION, 500)]) ∧
       (CMD_DEV_EUI, 500) ∉ (process_press r).2 ∧
       (∀ ps, (process_press r).1 = some ps → ps.count MSG_NOT_RESPONDING = 1)) ∧
    ((check_connection r).1 = true → (check_version r).1 = true →
       (check_dev_eui r).1 = false →
       process_press r = (some (MSG_CONNECTED :: (check_version r).2 ++ [MSG_NOT_RESPONDING]),
         (check_connection r).2 ++ [(CMD_VERSION, 500), (CMD_DEV_EUI, 500)]) ∧
       (∀ ps, (process_press r).1 = some ps → ps.count MSG_NOT_RESPONDING = 1)) := by
  refine ⟨?_, ?_, ?_⟩
  · intro h
    have hc := conn_never_ok r h
    have hp : process_press r = (some [MSG_NOT_RESPONDING], List.replicate 5 (CMD_AT, 500)) := by
      simp [process_press, hc]
    refine ⟨hp, ?_, ?_, ?_⟩
    · rw [hp]
      simp [List.mem_replicate]
      decide
    · rw [hp]
      simp [List.mem_replicate]
      decide
    · intro ps hps
      rw [hp] at hps
      simp only [Option.some.injEq] at hps
      rw [← hps]
      decide
  · intro hc1 hv
    have hvp := ver_fail_prints r hv
    have hp : process_press r =
        (some [MSG_CONNECTED, MSG_NOT_RESPONDING],
         (check_connection r).2 ++ [(CMD_VERSION, 500)]) := by
      simp [process_press, hc1, hv, hvp]
    refine ⟨hp, ?_, ?_⟩
    · rw [hp]
      intro hmem
      rcases List.mem_append.mp hmem with hm | hm
      · exact absurd (conn_trace_AT r 5 0 _ hm) (by decide)
      · simp only [List.mem_singleton] at hm
        exact absurd hm (by decide)
    · intro ps hps
      rw [hp] at hps
      simp only [Option.some.injEq] at hps
      rw [← hps]
      decide
  · intro hc1 hv1 hd
    have hdp := dev_fail_prints r hd
    have hp : process_press r =
        (some (MSG_CONNECTED :: (check_version r).2 ++ [MSG_NOT_RESPONDING]),
         (check_connection r).2 ++ [(CMD_VERSION, 500), (CMD_DEV_EUI, 500)]) := by
      simp [process_press, hc1, hv1, hdp, hd]
    refine ⟨hp, ?_⟩
    intro ps hps
    rw [hp] at hps
    simp only [Option.some.injEq] at hps
    rw [← hps]
    have hv0 := ver_ok_count r hv1
    have hne : ¬ (MSG_NOT_RESPONDING = MSG_CONNECTED) := by decide
    simp [List.count_cons, List.count_append, hv0, hne]

/-- Witness for `process_press_failure_reporting`: the never-`OK` responder
yields exactly one failure message and a trace of five `AT` sends only. -/
theorem process_press_failure_reporting_witness :
    (∀ i, i < 5 → okAt mockNeverOk i = false) ∧
    process_press mockNeverOk = (some [MSG_NOT_RESPONDING], List.replicate 5 (CMD_AT, 500)) :=
  ⟨by decide, ((process_press_failure_reporting mockNeverOk).1 (by decide)).1⟩

/-- C10: debounce behavior of `gpio_callback` on the button line.  A single
edge whose elapsed time since the stored `last_ms` is at least 20 ms is
accepted: `last_ms` is updated to `now` and an event with payload 1
(falling edge / press) or 0 (rising edge / release) is published to the
queue; an edge under 20 ms is discarded without updating `last_ms` and
without publishing.  Consequently two transitions closer than 20 ms
collapse into one emitted event, while transitions 20 ms or more apart
each emit independently. -/
theorem gpio_callback_debounce (last now : Nat) (q : List event_t)
    (h1 : last ≤ now) (h2 : now < 2 ^ 32) (h3 : q.length < 32) :
    (DEBOUNCE_MS ≤ now - last →
       gpio_callback SW_0 false true now last q =
         (now, q ++ [⟨event_type.EVENT_BUTTON, 1⟩]) ∧
       gpio_callback SW_0 true false now last q =
         (now, q ++ [⟨event_type.EVENT_BUTTON, 0⟩])) ∧
    (now - last < DEBOUNCE_MS →
       gpio_callback SW_0 false true now last q = (last, q) ∧
       gpio_callback SW_0 true false now last q = (last, q)) ∧
    (∀ t2, DEBOUNCE_MS ≤ now - last → now ≤ t2 → t2 < 2 ^ 32 →
       t2 - now < DEBOUNCE_MS →
       run_transitions last q [(now, false, true), (t2, true, false)] =
         (now, q ++ [⟨event_type.EVENT_BUTTON, 1⟩])) ∧
    (∀ t2, DEBOUNCE_MS ≤ now - last → now ≤ t2 → t2 < 2 ^ 32 →
       DEBOUNCE_MS ≤ t2 - now → q.length + 1 < 32 →
       run_transitions last q [(now, false, true), (t2, true, false)] =
         (t2, q ++ [⟨event_type.EVENT_BUTTON, 1⟩, ⟨event_type.EVENT_BUTTON, 0⟩])) := by
  have hu : u32sub now last = now - last := u32sub_eq now last h1 h2
  have fallAcc : DEBOUNCE_MS ≤ now - last →
      gpio_callback SW_0 false true now last q =
        (now, q ++ [⟨event_type.EVENT_BUTTON, 1⟩]) := by
    intro hd
    simp [gpio_callback, hu, hd, queue_try_add, h3]
  have riseAcc : DEBOUNCE_MS ≤ now - last →
      gpio_callback SW_0 true false now last q =
        (now, q ++ [⟨event_type.EVENT_BUTTON, 0⟩]) := by
    intro hd
    simp [gpio_callback, hu, hd, queue_try_add, h3]
  refine ⟨fun hd => ⟨fallAcc hd, riseAcc hd⟩, ?_, ?_, ?_⟩
  · intro hd
    have hnd : ¬ DEBOUNCE_MS ≤ now - last := by omega
    constructor
    · simp [gpio_callback, hu, hnd]
    · simp [gpio_callback, hu, hnd]
  · intro t2 hd ht2 ht2b hcl
    have hu2 : u32sub t2 now = t2 - now := u32sub_eq t2 now ht2 ht2b
    have hnd2 : ¬ DEBOUNCE_MS ≤ t2 - now := by omega
    simp only [run_transitions, fallAcc hd]
    simp [gpio_callback, hu2, hnd2, run_transitions]
  · intro t2 hd ht2 ht2b hsep hq2
    have hu2 : u32sub t2 now = t2 - now := u32sub_eq t2 now ht2 ht2b
    have hl2 : (q ++ [(⟨event_type.EVENT_BUTTON, 1⟩ : event_t)]).length < 32 := by
      simp only [List.length_append, List.length_cons, List.length_nil]
      omega
    simp only [run_transitions, fallAcc hd]
    simp [gpio_callback, hu2, hsep, queue_try_add, hl2, run_transitions]
    omega

/-- Witness for `gpio_callback_debounce` at concrete times: an accepted
press at 25 ms, a bounce at 30 ms that collapses, and a release at 50 ms
that emits independently. -/
theorem gpio_callback_debounce_witness :
    ((0 : Nat) ≤ 25 ∧ (25 : Nat) < 2 ^ 32 ∧ ([] : List event_t).length < 32) ∧
    gpio_callback SW_0 false true 25 0 [] = (25, [⟨event_type.EVENT_BUTTON, 1⟩]) ∧
    run_transitions 0 [] [(25, false, true), (30, true, false)] =
      (25, [⟨event_type.EVENT_BUTTON, 1⟩]) ∧
    run_transitions 0 [] [(25, false, true), (50, true, false)] =
      (50, [⟨event_type.EVENT_BUTTON, 1⟩, ⟨event_type.EVENT_BUTTON, 0⟩]) :=
  ⟨⟨by decide, by decide, by decide⟩,
   ((gpio_callback_debounce 0 25 [] (by decide) (by decide) (by decide)).1 (by decide)).1,
   (gpio_callback_debounce 0 25 [] (by decide) (by decide) (by decide)).2.2.1 30
     (by decide) (by decide) (by decide) (by decide),
   (gpio_callback_debounce 0 25 [] (by decide) (by decide) (by decide)).2.2.2 50
     (by decide) (by decide) (by decide) (by decide) (by decide)⟩
